import Mathlib

/-!
Shallow embedding of the test-tracking pipeline of the
`Python-Pylenium-Web` repository:

* `src/utils/api_helper.py` — class `APIHelper`, with operations
  `before_all_tests` (startRun), `after_each_test` (recordTest),
  `after_all_tests` (finishRun), and the HTTP wrappers `_post_request`
  and `_patch_request`;
* `src/utils/screenshot.py` — `save_screenshot_on_failure`;
* `src/utils/logger.py` — `get_logger`.

Modelling conventions:

* Python floats (test durations, wall-clock readings) are embedded as
  rationals `ℚ`; `int(x)` on a float is truncation toward zero,
  embedded as `pyInt`.
* An HTTP call's transport-level outcome is an explicit input of type
  `HttpOutcome`: a timeout, a refused connection, some other exception
  raised while sending, or a response with a status code and a parsed
  body.  The Python wrappers catch every one of these exceptions and
  return `None` / `False`; correspondingly the embedded wrappers are
  total functions into `Option` / `Bool`.
* Logging side effects are not modelled; file-system and report-sink
  effects of the screenshot helper are recorded in a small effects
  record, and its possible exceptions are modelled with `Except`.
* Python truthiness matters in two guards: `if not self.pipeline_run_id`
  is true both for `None` and for the empty string, which the embedding
  reproduces via `truthyId`.
-/

/-- Transport-level outcome of one HTTP request: the three exception
classes caught by `_post_request` / `_patch_request`
(`requests.exceptions.Timeout`, `requests.exceptions.ConnectionError`,
any other `Exception`), or an actual response with status code and
parsed JSON body of type `α`. -/
inductive HttpOutcome (α : Type) where
  | timeout : HttpOutcome α
  | connError : HttpOutcome α
  | otherExn : HttpOutcome α
  | response (code : ℕ) (body : α) : HttpOutcome α
deriving DecidableEq

/-- A POST succeeds when a response arrives with status 200 or 201
(`api_helper.py` line 302). -/
def isPostSuccess {α : Type} : HttpOutcome α → Bool
  | .response code _ => code == 200 || code == 201
  | _ => false

/-- A PATCH succeeds when a response arrives with status 200 or 204
(`api_helper.py` line 341). -/
def isPatchSuccess {α : Type} : HttpOutcome α → Bool
  | .response code _ => code == 200 || code == 204
  | _ => false

/-- `APIHelper._post_request`: returns the parsed JSON body on a
200/201 response and `None` on any other status or any transport
exception (all exception paths return `None`). -/
def post_request {α : Type} (o : HttpOutcome α) : Option α :=
  match o with
  | .response code body => if code == 200 || code == 201 then some body else none
  | _ => none

/-- `APIHelper._patch_request`: returns `True` exactly on a 200/204
response; every other status and every transport exception yields
`False`. -/
def patch_request {α : Type} (o : HttpOutcome α) : Bool :=
  match o with
  | .response code _ => code == 200 || code == 204
  | _ => false

/-- The nested `pipeline_run` object of the run-creation response:
it may or may not contain a `run_id` field. -/
structure PipelineRunObj where
  run_id : Option String
deriving DecidableEq

/-- Parsed JSON body of the `POST /api/pipeline-runs/` response:
it may or may not contain a `pipeline_run` object.  (A body without
`pipeline_run`, including the falsy empty dict, takes the
"invalid response structure" branch.) -/
structure CreateBody where
  pipeline_run : Option PipelineRunObj
deriving DecidableEq

/-- One locally recorded test result (`api_helper.py` lines 145-151):
the status string is stored upper-cased. -/
structure TestResult where
  name : String
  status : String
  duration : ℚ
  error_message : Option String
deriving DecidableEq

/-- Python `int()` applied to a real number: truncation toward zero. -/
def pyInt (q : ℚ) : ℤ :=
  if 0 ≤ q then q.floor else q.ceil

/-- Python `str.upper()`: upper-case every character (the semantics of
`String.toUpper`, written over the character list so that it reduces). -/
def pyUpper (s : String) : String :=
  ⟨s.data.map Char.toUpper⟩

/-- Python `str.lower()`: lower-case every character. -/
def pyLower (s : String) : String :=
  ⟨s.data.map Char.toLower⟩

/-- Body of the `POST /api/test-cases/` request built by
`after_each_test` (lines 165-173); timestamp fields are not modelled. -/
structure TestCasePayload where
  run : String
  name : String
  status : String
  error_message : Option String
  duration : ℤ
deriving DecidableEq

/-- Body of the `PATCH /api/pipeline-runs/{id}/` request built by
`after_all_tests` (lines 217-224); the completion timestamp is not
modelled.  Note the payload carries no skipped count. -/
structure RunUpdatePayload where
  status : String
  total_tests : ℕ
  passed_tests : ℕ
  failed_tests : ℕ
  duration : ℤ
deriving DecidableEq

/-- The figures printed by `_print_summary` (lines 256-259). -/
structure Summary where
  total : ℕ
  passed : ℕ
  failed : ℕ
  skipped : ℕ
deriving DecidableEq

/-- Mutable state of an `APIHelper` instance (`__init__`, lines 38-67).
Environment-derived configuration strings that no claim depends on
(API url, token, job name, ...) are omitted; `is_jenkins` captures the
CI-detection flag computed on line 40. -/
structure APIHelper where
  is_jenkins : Bool
  pipeline_run_id : Option String
  test_results : List TestResult
  suite_start_time : Option ℚ
  api1 : ℕ
  api3 : ℕ
  api4 : ℕ
deriving DecidableEq

/-- A freshly constructed helper (`__init__`): no run id, no results,
no start time, all call counters zero.  The CI flag is determined by
the environment, so it is a parameter. -/
def APIHelper.init (ci : Bool) : APIHelper :=
  { is_jenkins := ci
    pipeline_run_id := none
    test_results := []
    suite_start_time := none
    api1 := 0
    api3 := 0
    api4 := 0 }

/-- Python truthiness of `self.pipeline_run_id`: truthy iff it is set
and non-empty (`if not self.pipeline_run_id` on lines 157 and 196). -/
def truthyId : Option String → Bool
  | none => false
  | some s => s != ""

/-- `APIHelper.before_all_tests` (API-1).  Takes the current wall-clock
reading `tNow` (for `time.time()` on line 81) and the outcome of the
POST.  Returns the new state and the number of HTTP calls made.
Not under CI: returns immediately, untouched state, zero calls.
Otherwise records the start time, makes one POST, and on a successful
response whose body has `pipeline_run.run_id` stores the run id and
bumps the `api-1` counter; on any other outcome it only logs. -/
def before_all_tests (s : APIHelper) (tNow : ℚ) (o : HttpOutcome CreateBody) :
    APIHelper × ℕ :=
  if s.is_jenkins = false then
    (s, 0)
  else
    let s1 := { s with suite_start_time := some tNow }
    match post_request o with
    | some body =>
      match body.pipeline_run with
      | some pr =>
        match pr.run_id with
        | some rid =>
          ({ s1 with pipeline_run_id := some rid, api1 := s1.api1 + 1 }, 1)
        | none => (s1, 1)
      | none => (s1, 1)
    | none => (s1, 1)

/-- `APIHelper.after_each_test` (API-3).  Always appends the local
record (status stored upper-cased).  If not under CI or the run id is
falsy, stops there (zero HTTP calls).  Otherwise builds the test-case
payload — duration converted to milliseconds with `int(duration*1000)`,
status lower-cased — makes one POST, and bumps `api-3` only when the
POST succeeded.  Returns (state, HTTP-call count, payload sent). -/
def after_each_test (s : APIHelper) (test_name : String) (status : String)
    (duration : ℚ) (error_message : Option String) (o : HttpOutcome Unit) :
    APIHelper × ℕ × Option TestCasePayload :=
  let r : TestResult :=
    { name := test_name
      status := pyUpper status
      duration := duration
      error_message := error_message }
  let s1 := { s with test_results := s.test_results ++ [r] }
  if s.is_jenkins = false ∨ truthyId s.pipeline_run_id = false then
    (s1, 0, none)
  else
    match s.pipeline_run_id with
    | some rid =>
      let payload : TestCasePayload :=
        { run := rid
          name := test_name
          status := pyLower status
          error_message := error_message
          duration := pyInt (duration * 1000) }
      match post_request o with
      | some _ => ({ s1 with api3 := s1.api3 + 1 }, 1, some payload)
      | none => (s1, 1, some payload)
    | none => (s1, 0, none)

/-- Count of recorded results whose stored status equals `st`
(the `sum(1 for t in self.test_results if t['status'] == ...)`
expressions on lines 208-210 and 256-258). -/
def countStatus (rs : List TestResult) (st : String) : ℕ :=
  rs.countP (fun r => r.status == st)

/-- `APIHelper._print_summary` (lines 251-266): prints nothing when no
results were recorded, otherwise the per-status tally. -/
def print_summary (rs : List TestResult) : Option Summary :=
  if rs = [] then none
  else
    some
      { total := rs.length
        passed := countStatus rs "PASSED"
        failed := countStatus rs "FAILED"
        skipped := countStatus rs "SKIPPED" }

/-- Result of `after_all_tests`: the new state, the number of HTTP
calls made, the PATCH payload when one was sent, and the local summary
when one was printed. -/
structure FinishResult where
  state : APIHelper
  httpCalls : ℕ
  payload : Option RunUpdatePayload
  summary : Option Summary
deriving DecidableEq

/-- `APIHelper.after_all_tests` (API-4).  Takes the current wall-clock
reading `tNow` (for `time.time()` on line 207) and the PATCH outcome.
If not under CI or the run id is falsy: prints the local summary only,
zero HTTP calls.  Otherwise computes the per-status tally, the overall
status (`failed` iff at least one FAILED record), the elapsed duration,
sends one PATCH, and bumps `api-4` only when it succeeded. -/
def after_all_tests (s : APIHelper) (tNow : ℚ) (o : HttpOutcome Unit) :
    FinishResult :=
  if s.is_jenkins = false ∨ truthyId s.pipeline_run_id = false then
    { state := s, httpCalls := 0, payload := none
      summary := print_summary s.test_results }
  else
    let total_duration : ℚ :=
      match s.suite_start_time with
      | some t0 => tNow - t0
      | none => 0
    let passed_count := countStatus s.test_results "PASSED"
    let failed_count := countStatus s.test_results "FAILED"
    let total_count := s.test_results.length
    let overall_status := if failed_count > 0 then "failed" else "passed"
    let payload : RunUpdatePayload :=
      { status := overall_status
        total_tests := total_count
        passed_tests := passed_count
        failed_tests := failed_count
        duration := pyInt (total_duration * 1000) }
    if patch_request o then
      { state := { s with api4 := s.api4 + 1 }, httpCalls := 1
        payload := some payload, summary := none }
    else
      { state := s, httpCalls := 1, payload := some payload, summary := none }

/-- Run-creation response of the mocked backend in the end-to-end
scenario: status 201 with a valid nested run identifier. -/
def okCreate : HttpOutcome CreateBody :=
  .response 201 { pipeline_run := some { run_id := some "run-123" } }

/-- One step of the end-to-end scenario: record a test
`(name, status, duration)` with a succeeding test-case POST. -/
def scenarioStep (st : APIHelper) (p : String × String × ℚ) : APIHelper :=
  (after_each_test st p.1 p.2.1 p.2.2 none (.response 201 ())).1

/-- The end-to-end scenario: a fresh helper under CI runs
`before_all_tests` against the mocked backend, records the given
tests (every HTTP call succeeding), then runs `after_all_tests` with a
succeeding PATCH.  Wall-clock readings: 0 at start, 10 at end. -/
def runScenario (tests : List (String × String × ℚ)) : FinishResult :=
  after_all_tests
    (tests.foldl scenarioStep (before_all_tests (APIHelper.init true) 0 okCreate).1)
    10 (.response 200 ())

/-- Side effects performed by one `save_screenshot_on_failure` call
(`src/utils/screenshot.py`). -/
structure ScreenshotEffects where
  tookScreenshot : Bool
  attachedToReport : Bool
deriving DecidableEq

/-- `save_screenshot_on_failure` (`src/utils/screenshot.py` lines 6-26).
`py` is the browser-session handle looked up in `item.funcargs` (absent
fixture ⇒ `None`); `shot` is the outcome of `py.screenshot(path)` and
`attach` the outcome of the report-attachment block, each an `Except`
carrying the exception message when the underlying call raises.
Faithful control flow: the handle-absent case returns immediately;
`py.screenshot` runs OUTSIDE the try/except, so its exception
propagates (an `Except.error` result); only the attachment block
(pytest-html extras + allure attach, lines 17-26) is wrapped in
`try ... except Exception: pass`. -/
def save_screenshot_on_failure (py : Option Unit)
    (shot : Except String Unit) (attach : Except String Unit) :
    Except String ScreenshotEffects :=
  match py with
  | none => .ok { tookScreenshot := false, attachedToReport := false }
  | some _ =>
    match shot with
    | .error e => .error e
    | .ok _ =>
      match attach with
      | .error _ => .ok { tookScreenshot := true, attachedToReport := false }
      | .ok _ => .ok { tookScreenshot := true, attachedToReport := true }

/-- A handler attached to a named logger by `get_logger`
(`src/utils/logger.py`): a `FileHandler` on a dated path, or the
console `StreamHandler`. -/
inductive Handler where
  | file (path : String) : Handler
  | stream : Handler
deriving DecidableEq

/-- The process-wide `logging` registry, restricted to what
`get_logger` reads and writes: the handler list of each named logger
(a logger never requested yet has no handlers). -/
def LoggerState : Type := String → List Handler

/-- `get_logger` (`src/utils/logger.py` lines 5-20).  `date` is the
`datetime.now().strftime` component of the log-file name.  If the named
logger already has handlers it is returned as is; otherwise exactly one
file handler and one stream handler are attached. -/
def get_logger (date : String) (name : String) (st : LoggerState) :
    LoggerState :=
  if st name ≠ [] then st
  else
    Function.update st name
      [Handler.file ("logs/" ++ name ++ "_" ++ date ++ ".log"), Handler.stream]

/-! ## Helper lemmas -/

/-- When every recorded status is one of the three statuses of the
documented domain, the per-status tallies partition the list. -/
theorem countStatus_partition (rs : List TestResult)
    (h : ∀ r ∈ rs, r.status = "PASSED" ∨ r.status = "FAILED" ∨ r.status = "SKIPPED") :
    countStatus rs "PASSED" + countStatus rs "FAILED" + countStatus rs "SKIPPED"
      = rs.length := by
  induction rs with
  | nil => rfl
  | cons r rs ih =>
    have hr := h r (List.mem_cons_self r rs)
    have ih' := ih fun x hx => h x (List.mem_cons_of_mem r hx)
    rcases hr with h1 | h1 | h1 <;>
      simp [countStatus, List.countP_cons, h1] at ih' ⊢ <;> omega

/-- Under CI with a truthy run id, `after_all_tests` makes one PATCH
whose payload carries the computed aggregate statistics. -/
theorem after_all_tests_remote (s : APIHelper) (tNow : ℚ) (o : HttpOutcome Unit)
    (rid : String) (hj : s.is_jenkins = true) (hid : s.pipeline_run_id = some rid)
    (hr : rid ≠ "") :
    (after_all_tests s tNow o).payload =
        some
          { status :=
              if 0 < countStatus s.test_results "FAILED" then "failed" else "passed"
            total_tests := s.test_results.length
            passed_tests := countStatus s.test_results "PASSED"
            failed_tests := countStatus s.test_results "FAILED"
            duration :=
              pyInt
                ((match s.suite_start_time with
                  | some t0 => tNow - t0
                  | none => 0) * 1000) }
      ∧ (after_all_tests s tNow o).httpCalls = 1
      ∧ (after_all_tests s tNow o).state.api1 = s.api1
      ∧ (after_all_tests s tNow o).state.api3 = s.api3
      ∧ (after_all_tests s tNow o).state.api4 =
          (if patch_request o then s.api4 + 1 else s.api4) := by
  unfold after_all_tests
  have hguard : ¬(s.is_jenkins = false ∨ truthyId s.pipeline_run_id = false) := by
    simp [hj, hid, truthyId, hr]
  rw [if_neg hguard]
  cases hpo : patch_request o <;> simp [hpo, Nat.pos_iff_ne_zero]

/-! ## Claims -/

/-- C1: at session end the aggregate counts computed by the tracking
client (total, passed, failed, skipped) equal the partition of the
locally recorded test-result list by stored status; when every
recorded status lies in the documented domain the three counts sum to
the number of records.  First conjunct: the remote PATCH payload of
`after_all_tests`; second conjunct: the local `_print_summary`
figures. -/
theorem c1_aggregate_counts_partition (s : APIHelper) (tNow : ℚ)
    (o : HttpOutcome Unit) (rid : String)
    (hj : s.is_jenkins = true) (hid : s.pipeline_run_id = some rid) (hr : rid ≠ "")
    (hstat : ∀ r ∈ s.test_results,
      r.status = "PASSED" ∨ r.status = "FAILED" ∨ r.status = "SKIPPED") :
    (∃ p, (after_all_tests s tNow o).payload = some p ∧
      p.total_tests = s.test_results.length ∧
      p.passed_tests = countStatus s.test_results "PASSED" ∧
      p.failed_tests = countStatus s.test_results "FAILED" ∧
      p.passed_tests + p.failed_tests + countStatus s.test_results "SKIPPED"
        = s.test_results.length) ∧
    (∀ rs : List TestResult,
      (∀ r ∈ rs, r.status = "PASSED" ∨ r.status = "FAILED" ∨ r.status = "SKIPPED") →
      ∀ sm, print_summary rs = some sm →
        sm.total = rs.length ∧
        sm.passed = countStatus rs "PASSED" ∧
        sm.failed = countStatus rs "FAILED" ∧
        sm.skipped = countStatus rs "SKIPPED" ∧
        sm.passed + sm.failed + sm.skipped = rs.length) := by
  constructor
  · obtain ⟨hpay, -⟩ := after_all_tests_remote s tNow o rid hj hid hr
    refine ⟨_, hpay, rfl, rfl, rfl, countStatus_partition _ hstat⟩
  · intro rs hstat' sm hsm
    unfold print_summary at hsm
    by_cases hnil : rs = []
    · simp [hnil] at hsm
    · rw [if_neg hnil] at hsm
      cases hsm
      exact ⟨rfl, rfl, rfl, rfl, countStatus_partition _ hstat'⟩

/-- Witness for C1 at a concrete session of three results. -/
theorem c1_witness :
    ∃ p,
      (after_all_tests
        { is_jenkins := true
          pipeline_run_id := some "run-123"
          test_results :=
            [{ name := "t1", status := "PASSED", duration := 1, error_message := none },
             { name := "t2", status := "FAILED", duration := 2, error_message := none },
             { name := "t3", status := "SKIPPED", duration := 3, error_message := none }]
          suite_start_time := some 0
          api1 := 1, api3 := 3, api4 := 0 } 10 (.response 200 ())).payload = some p ∧
      p.total_tests = 3 ∧ p.passed_tests = 1 ∧ p.failed_tests = 1 ∧
      p.passed_tests + p.failed_tests + 1 = 3 := by
  obtain ⟨⟨p, hp, h1, h2, h3, h4⟩, -⟩ :=
    c1_aggregate_counts_partition
      { is_jenkins := true
        pipeline_run_id := some "run-123"
        test_results :=
          [{ name := "t1", status := "PASSED", duration := 1, error_message := none },
           { name := "t2", status := "FAILED", duration := 2, error_message := none },
           { name := "t3", status := "SKIPPED", duration := 3, error_message := none }]
        suite_start_time := some 0
        api1 := 1, api3 := 3, api4 := 0 } 10 (.response 200 ()) "run-123"
      rfl rfl (by decide) (by decide)
  refine ⟨p, hp, ?_, ?_, ?_, ?_⟩ <;>
    simp [h1, h2, h3, h4, countStatus]

/-- C2: the overall status computed by `after_all_tests` is `failed`
iff at least one recorded result has stored status `FAILED`, and is
`passed` otherwise (so an all-skipped or empty run is `passed`). -/
theorem c2_overall_status_iff_failed (s : APIHelper) (tNow : ℚ)
    (o : HttpOutcome Unit) (rid : String)
    (hj : s.is_jenkins = true) (hid : s.pipeline_run_id = some rid) (hr : rid ≠ "") :
    ∃ p, (after_all_tests s tNow o).payload = some p ∧
      (p.status = "failed" ↔ ∃ r ∈ s.test_results, r.status = "FAILED") ∧
      ((¬∃ r ∈ s.test_results, r.status = "FAILED") → p.status = "passed") := by
  obtain ⟨hpay, -⟩ := after_all_tests_remote s tNow o rid hj hid hr
  have hpos : 0 < countStatus s.test_results "FAILED" ↔
      ∃ r ∈ s.test_results, r.status = "FAILED" := by
    rw [countStatus, List.countP_pos_iff]
    constructor
    · rintro ⟨r, hmem, hbeq⟩
      exact ⟨r, hmem, by simpa using hbeq⟩
    · rintro ⟨r, hmem, hst⟩
      exact ⟨r, hmem, by simp [hst]⟩
  refine ⟨_, hpay, ?_, ?_⟩ <;> dsimp only
  · by_cases hc : 0 < countStatus s.test_results "FAILED"
    · rw [if_pos hc]
      simp only [true_iff]
      exact hpos.mp hc
    · rw [if_neg hc]
      constructor
      · intro hcontra
        exact absurd hcontra (by decide)
      · intro hex
        exact absurd (hpos.mpr hex) hc
  · intro hno
    rw [if_neg (fun hc => hno (hpos.mp hc))]

/-- Witness for C2: a run with one failed record has overall status
`failed`. -/
theorem c2_witness :
    ∃ p,
      (after_all_tests
        { is_jenkins := true
          pipeline_run_id := some "r"
          test_results :=
            [{ name := "t", status := "FAILED", duration := 1, error_message := none }]
          suite_start_time := some 0
          api1 := 1, api3 := 1, api4 := 0 } 2 .timeout).payload = some p ∧
      p.status = "failed" := by
  obtain ⟨p, hp, hiff, -⟩ :=
    c2_overall_status_iff_failed
      { is_jenkins := true
        pipeline_run_id := some "r"
        test_results :=
          [{ name := "t", status := "FAILED", duration := 1, error_message := none }]
        suite_start_time := some 0
        api1 := 1, api3 := 1, api4 := 0 } 2 .timeout "r" rfl rfl (by decide)
  exact ⟨p, hp, hiff.mpr ⟨_, List.mem_singleton_self _, rfl⟩⟩

/-- C3: every transport-level failure of an HTTP call — timeout,
refused connection, any other exception raised while sending, or a
non-success status code — is absorbed by the request wrappers
(`_post_request` returns `None`, `_patch_request` returns `False`),
and the three lifecycle operations then complete normally with no
remote effect: run id, call counters and recorded results are exactly
as if the call had not happened (the local record of
`after_each_test` is still appended).  The operations are total Lean
functions, embedding the fact that no exception escapes them. -/
theorem c3_http_failure_no_remote_effect :
    (∀ (α : Type) (o : HttpOutcome α), isPostSuccess o = false →
      post_request o = none) ∧
    (∀ (α : Type) (o : HttpOutcome α), isPatchSuccess o = false →
      patch_request o = false) ∧
    (∀ (s : APIHelper) (tNow : ℚ) (o : HttpOutcome CreateBody),
      isPostSuccess o = false →
      (before_all_tests s tNow o).1.pipeline_run_id = s.pipeline_run_id ∧
      (before_all_tests s tNow o).1.api1 = s.api1 ∧
      (before_all_tests s tNow o).1.test_results = s.test_results) ∧
    (∀ (s : APIHelper) (n st : String) (d : ℚ) (em : Option String)
      (o : HttpOutcome Unit), isPostSuccess o = false →
      (after_each_test s n st d em o).1.test_results =
        s.test_results ++
          [{ name := n, status := pyUpper st, duration := d, error_message := em }] ∧
      (after_each_test s n st d em o).1.api3 = s.api3 ∧
      (after_each_test s n st d em o).1.pipeline_run_id = s.pipeline_run_id) ∧
    (∀ (s : APIHelper) (tNow : ℚ) (o : HttpOutcome Unit),
      isPatchSuccess o = false →
      (after_all_tests s tNow o).state.api4 = s.api4 ∧
      (after_all_tests s tNow o).state.test_results = s.test_results ∧
      (after_all_tests s tNow o).state.pipeline_run_id = s.pipeline_run_id) := by
  have hpost : ∀ (α : Type) (o : HttpOutcome α), isPostSuccess o = false →
      post_request o = none := by
    intro α o h
    cases o with
    | response code body =>
      simp only [isPostSuccess] at h
      simp [post_request, h]
    | timeout => rfl
    | connError => rfl
    | otherExn => rfl
  have hpatch : ∀ (α : Type) (o : HttpOutcome α), isPatchSuccess o = false →
      patch_request o = false := by
    intro α o h
    cases o with
    | response code body => simpa [isPatchSuccess, patch_request] using h
    | timeout => rfl
    | connError => rfl
    | otherExn => rfl
  refine ⟨hpost, hpatch, ?_, ?_, ?_⟩
  · intro s tNow o h
    unfold before_all_tests
    by_cases hj : s.is_jenkins = false
    · rw [if_pos hj]
      exact ⟨rfl, rfl, rfl⟩
    · rw [if_neg hj, hpost _ o h]
      exact ⟨rfl, rfl, rfl⟩
  · intro s n st d em o h
    unfold after_each_test
    by_cases hg : s.is_jenkins = false ∨ truthyId s.pipeline_run_id = false
    · rw [if_pos hg]
      exact ⟨rfl, rfl, rfl⟩
    · rw [if_neg hg]
      cases hid : s.pipeline_run_id with
      | none => exact ⟨rfl, rfl, by simp [hid]⟩
      | some rid =>
        rw [hpost _ o h]
        exact ⟨rfl, rfl, by simp [hid]⟩
  · intro s tNow o h
    unfold after_all_tests
    by_cases hg : s.is_jenkins = false ∨ truthyId s.pipeline_run_id = false
    · rw [if_pos hg]
      exact ⟨rfl, rfl, rfl⟩
    · rw [if_neg hg, hpatch _ o h]
      exact ⟨rfl, rfl, rfl⟩

/-- Witness for C3 at concrete failing outcomes: a timed-out create
call leaves a fresh CI helper without a run id, and a refused PATCH
does not bump the `api-4` counter. -/
theorem c3_witness :
    post_request (.timeout : HttpOutcome Unit) = none ∧
    patch_request (.connError : HttpOutcome Unit) = false ∧
    (before_all_tests (APIHelper.init true) 0 .timeout).1.pipeline_run_id = none ∧
    (after_all_tests (APIHelper.init true) 0 .connError).state.api4 = 0 := by
  obtain ⟨h1, h2, h3, -, h5⟩ := c3_http_failure_no_remote_effect
  exact ⟨h1 Unit .timeout rfl, h2 Unit .connError rfl,
    (h3 (APIHelper.init true) 0 .timeout rfl).1,
    (h5 (APIHelper.init true) 0 .connError rfl).1⟩

/-- C4: with the CI-detection flag false, `before_all_tests` returns
the state untouched with zero HTTP calls (run id stays `None`),
`after_each_test` performs zero HTTP calls but still appends its local
record, and `after_all_tests` performs zero HTTP calls, sends no
payload, and still produces the local summary. -/
theorem c4_non_ci_zero_http (s : APIHelper) (tNow tEnd : ℚ)
    (o : HttpOutcome CreateBody) (n st : String) (d : ℚ) (em : Option String)
    (o2 o3 : HttpOutcome Unit) (hj : s.is_jenkins = false) :
    before_all_tests s tNow o = (s, 0) ∧
    (after_each_test s n st d em o2).1.test_results =
      s.test_results ++
        [{ name := n, status := pyUpper st, duration := d, error_message := em }] ∧
    (after_each_test s n st d em o2).2.1 = 0 ∧
    (after_each_test s n st d em o2).2.2 = none ∧
    (after_each_test s n st d em o2).1.pipeline_run_id = s.pipeline_run_id ∧
    (after_all_tests s tEnd o3).httpCalls = 0 ∧
    (after_all_tests s tEnd o3).payload = none ∧
    (after_all_tests s tEnd o3).summary = print_summary s.test_results ∧
    (after_all_tests s tEnd o3).state = s := by
  have hg : s.is_jenkins = false ∨ truthyId s.pipeline_run_id = false := Or.inl hj
  refine ⟨?_, ?_, ?_, ?_, ?_, ?_, ?_, ?_, ?_⟩
  · unfold before_all_tests
    rw [if_pos hj]
  all_goals
    first
    | (unfold after_each_test; rw [if_pos hg])
    | (unfold after_all_tests; rw [if_pos hg])

/-- Witness for C4 on a freshly constructed non-CI helper. -/
theorem c4_witness :
    before_all_tests (APIHelper.init false) 0 okCreate = (APIHelper.init false, 0) ∧
    (after_each_test (APIHelper.init false) "t" "passed" 1 none
      (.response 201 ())).2.1 = 0 ∧
    (after_all_tests (APIHelper.init false) 5 (.response 200 ())).httpCalls = 0 := by
  obtain ⟨h1, -, h3, -, -, h6, -⟩ :=
    c4_non_ci_zero_http (APIHelper.init false) 0 5 okCreate "t" "passed" 1 none
      (.response 201 ()) (.response 200 ()) rfl
  exact ⟨h1, h3, h6⟩

/-- C5: a successful create response whose body lacks the nested
identifier (`pipeline_run` absent, or present without `run_id`) leaves
the run identifier unset and the `api-1` counter untouched while still
having made the one HTTP call, and subsequent `after_each_test` and
`after_all_tests` calls then make zero HTTP calls. -/
theorem c5_missing_run_id_stays_unset (s : APIHelper) (tNow tEnd : ℚ)
    (code : ℕ) (body : CreateBody) (n st : String) (d : ℚ) (em : Option String)
    (o2 o3 : HttpOutcome Unit)
    (hj : s.is_jenkins = true) (hid : s.pipeline_run_id = none)
    (hcode : code = 200 ∨ code = 201)
    (hbody : body.pipeline_run = none ∨
      ∃ pr, body.pipeline_run = some pr ∧ pr.run_id = none) :
    (before_all_tests s tNow (.response code body)).1.pipeline_run_id = none ∧
    (before_all_tests s tNow (.response code body)).1.api1 = s.api1 ∧
    (before_all_tests s tNow (.response code body)).2 = 1 ∧
    (after_each_test (before_all_tests s tNow (.response code body)).1
      n st d em o2).2.1 = 0 ∧
    (after_all_tests (before_all_tests s tNow (.response code body)).1
      tEnd o3).httpCalls = 0 := by
  have hpost : post_request (.response code body : HttpOutcome CreateBody)
      = some body := by
    rcases hcode with h | h <;> simp [post_request, h]
  have hres : before_all_tests s tNow (.response code body)
      = ({ s with suite_start_time := some tNow }, 1) := by
    unfold before_all_tests
    rw [if_neg (by simp [hj])]
    rcases hbody with h | ⟨pr, hpr, hrid⟩
    · simp [hpost, h]
    · simp [hpost, hpr, hrid]
  rw [hres]
  have hid' : ({ s with suite_start_time := some tNow } : APIHelper).pipeline_run_id
      = none := hid
  have hg : ({ s with suite_start_time := some tNow } : APIHelper).is_jenkins = false
      ∨ truthyId ({ s with suite_start_time := some tNow } :
          APIHelper).pipeline_run_id = false := by
    right
    rw [hid']
    rfl
  refine ⟨hid', rfl, rfl, ?_, ?_⟩
  · unfold after_each_test
    rw [if_pos hg]
  · unfold after_all_tests
    rw [if_pos hg]

/-- Witness for C5: a CI helper receiving a 200 response with an empty
body keeps no run id and then stays local-only. -/
theorem c5_witness :
    (before_all_tests (APIHelper.init true) 0
      (.response 200 { pipeline_run := none })).1.pipeline_run_id = none ∧
    (before_all_tests (APIHelper.init true) 0
      (.response 200 { pipeline_run := none })).1.api1 = 0 ∧
    (after_all_tests
      (before_all_tests (APIHelper.init true) 0
        (.response 200 { pipeline_run := none })).1 9 .timeout).httpCalls = 0 := by
  obtain ⟨h1, h2, -, -, h5⟩ :=
    c5_missing_run_id_stays_unset (APIHelper.init true) 0 9 200
      { pipeline_run := none } "t" "passed" 1 none .timeout .timeout
      rfl rfl (Or.inl rfl) (Or.inl rfl)
  exact ⟨h1, h2, h5⟩

/-- C7: in the remote branch, `after_each_test` forwards the duration
in milliseconds computed by `int(duration * 1000)`, which for a
non-negative duration is the integer floor of `duration * 1000` —
truncation, not rounding.  Python float literals are embedded as the
rationals they denote. -/
theorem c7_duration_truncation (s : APIHelper) (rid n st : String)
    (em : Option String) (o : HttpOutcome Unit) (d : ℚ)
    (hj : s.is_jenkins = true) (hid : s.pipeline_run_id = some rid) (hr : rid ≠ "")
    (hd : 0 ≤ d) :
    ∃ p, (after_each_test s n st d em o).2.2 = some p ∧
      p.duration = ⌊d * 1000⌋ := by
  have hg : ¬(s.is_jenkins = false ∨ truthyId s.pipeline_run_id = false) := by
    simp [hj, hid, truthyId, hr]
  have hfloor : pyInt (d * 1000) = ⌊d * 1000⌋ := by
    rw [pyInt, if_pos (mul_nonneg hd (by norm_num))]
    rfl
  unfold after_each_test
  rw [if_neg hg]
  simp only [hid]
  cases hpo : post_request o <;> simp [hpo, hfloor]

/-- Witness for C7: a duration of 1.234 seconds is forwarded as
exactly 1234 milliseconds. -/
theorem c7_witness :
    ∃ p,
      (after_each_test
        { is_jenkins := true, pipeline_run_id := some "r", test_results := []
          suite_start_time := some 0, api1 := 1, api3 := 0, api4 := 0 }
        "t" "passed" (1234 / 1000) none .timeout).2.2 = some p ∧
      p.duration = 1234 := by
  obtain ⟨p, hp, hd⟩ :=
    c7_duration_truncation
      { is_jenkins := true, pipeline_run_id := some "r", test_results := []
        suite_start_time := some 0, api1 := 1, api3 := 0, api4 := 0 }
      "r" "t" "passed" none .timeout (1234 / 1000) rfl rfl (by decide) (by positivity)
  refine ⟨p, hp, ?_⟩
  rw [hd]
  norm_num

/-- C8 counterexample: the claim says `save_screenshot_on_failure`
never propagates an exception, but `py.screenshot(path)` runs outside
the `try` block, so a screenshot-capture failure propagates to the
caller. -/
theorem c8_counterexample :
    save_screenshot_on_failure (some ()) (.error "screenshot failed") (.ok ())
      = .error "screenshot failed" := rfl

/-- C8 (amended): the handler is a no-op when the browser-session
handle is absent; report-attachment failures are caught and silently
ignored (the call still returns normally); but a failure during the
screenshot capture itself propagates unchanged to the caller. -/
theorem c8_attachment_failures_swallowed :
    (∀ shot attach : Except String Unit,
      save_screenshot_on_failure none shot attach =
        .ok { tookScreenshot := false, attachedToReport := false }) ∧
    (∀ e : String,
      save_screenshot_on_failure (some ()) (.ok ()) (.error e) =
        .ok { tookScreenshot := true, attachedToReport := false }) ∧
    (∀ attach : Except String Unit,
      ∃ eff, save_screenshot_on_failure (some ()) (.ok ()) attach = .ok eff) ∧
    (∀ (e : String) (attach : Except String Unit),
      save_screenshot_on_failure (some ()) (.error e) attach = .error e) := by
  refine ⟨fun shot attach => rfl, fun e => rfl, fun attach => ?_, fun e attach => rfl⟩
  cases attach <;> exact ⟨_, rfl⟩

/-- C9: `get_logger` is idempotent per name: the first call on a fresh
name attaches exactly one file handler and one stream handler, and
every subsequent call (any number of repetitions, any later date)
returns the registry unchanged. -/
theorem c9_get_logger_idempotent (d name : String) (st : LoggerState)
    (hfresh : st name = []) :
    get_logger d name st name =
      [Handler.file ("logs/" ++ name ++ "_" ++ d ++ ".log"), Handler.stream] ∧
    (∀ d2, get_logger d2 name (get_logger d name st) = get_logger d name st) ∧
    (∀ (d2 : String) (k : ℕ),
      (get_logger d2 name)^[k] (get_logger d name st) = get_logger d name st) := by
  have hstep : ∀ (d2 : String) (st' : LoggerState), st' name ≠ [] →
      get_logger d2 name st' = st' := by
    intro d2 st' h
    unfold get_logger
    rw [if_pos h]
  have h1 : get_logger d name st name =
      [Handler.file ("logs/" ++ name ++ "_" ++ d ++ ".log"), Handler.stream] := by
    unfold get_logger
    rw [if_neg (by simp [hfresh]), Function.update_same]
  have h2 : ∀ d2, get_logger d2 name (get_logger d name st) = get_logger d name st :=
    fun d2 => hstep d2 _ (by rw [h1]; simp)
  refine ⟨h1, h2, fun d2 k => ?_⟩
  induction k with
  | zero => rfl
  | succ k ih => rw [Function.iterate_succ_apply, h2 d2, ih]

/-- Witness for C9 on a fresh registry and the name `app`. -/
theorem c9_witness :
    get_logger "20251012" "app" (fun _ => []) "app" =
      [Handler.file "logs/app_20251012.log", Handler.stream] ∧
    get_logger "20251013" "app" (get_logger "20251012" "app" fun _ => []) =
      get_logger "20251012" "app" fun _ => [] := by
  obtain ⟨h1, h2, -⟩ :=
    c9_get_logger_idempotent "20251012" "app" (fun _ => []) rfl
  exact ⟨by rw [h1]; decide, h2 "20251013"⟩

/-- C10: the run identifier is `None` at construction; it is modified
only by a `before_all_tests` call running under CI that received a
success response containing the nested `run_id` field (and is then set
to that field's value); `after_each_test` and `after_all_tests` never
modify it; and whenever it is `None`, both of them perform zero HTTP
calls regardless of the CI flag. -/
theorem c10_run_id_invariant :
    (∀ b, (APIHelper.init b).pipeline_run_id = none) ∧
    (∀ (s : APIHelper) (n st : String) (d : ℚ) (em : Option String)
      (o : HttpOutcome Unit),
      (after_each_test s n st d em o).1.pipeline_run_id = s.pipeline_run_id) ∧
    (∀ (s : APIHelper) (t : ℚ) (o : HttpOutcome Unit),
      (after_all_tests s t o).state.pipeline_run_id = s.pipeline_run_id) ∧
    (∀ (s : APIHelper) (t : ℚ) (o : HttpOutcome CreateBody),
      (before_all_tests s t o).1.pipeline_run_id ≠ s.pipeline_run_id →
      s.is_jenkins = true ∧
      ∃ code body pr rid, o = .response code body ∧ (code = 200 ∨ code = 201) ∧
        body.pipeline_run = some pr ∧ pr.run_id = some rid ∧
        (before_all_tests s t o).1.pipeline_run_id = some rid) ∧
    (∀ (s : APIHelper) (n st : String) (d : ℚ) (em : Option String)
      (o : HttpOutcome Unit), s.pipeline_run_id = none →
      (after_each_test s n st d em o).2.1 = 0) ∧
    (∀ (s : APIHelper) (t : ℚ) (o : HttpOutcome Unit), s.pipeline_run_id = none →
      (after_all_tests s t o).httpCalls = 0) := by
  refine ⟨fun b => rfl, ?_, ?_, ?_, ?_, ?_⟩
  · intro s n st d em o
    unfold after_each_test
    by_cases hg : s.is_jenkins = false ∨ truthyId s.pipeline_run_id = false
    · rw [if_pos hg]
    · rw [if_neg hg]
      cases hid : s.pipeline_run_id with
      | none => exact absurd (Or.inr (by rw [hid]; rfl)) hg
      | some rid => cases hpo : post_request o <;> simp [hid, hpo]
  · intro s t o
    unfold after_all_tests
    by_cases hg : s.is_jenkins = false ∨ truthyId s.pipeline_run_id = false
    · rw [if_pos hg]
    · rw [if_neg hg]
      cases hpo : patch_request o <;> simp [hpo]
  · intro s t o h
    unfold before_all_tests at h ⊢
    by_cases hj : s.is_jenkins = false
    · rw [if_pos hj] at h
      exact absurd rfl h
    · rw [if_neg hj] at h ⊢
      refine ⟨by simpa using hj, ?_⟩
      cases o with
      | timeout => exact absurd rfl h
      | connError => exact absurd rfl h
      | otherExn => exact absurd rfl h
      | response code body =>
        by_cases hc : (code == 200 || code == 201) = true
        · have hpost : post_request (.response code body : HttpOutcome CreateBody)
              = some body := by simp [post_request, hc]
          cases hpr : body.pipeline_run with
          | none => simp [hpost, hpr] at h
          | some pr =>
            cases hrid : pr.run_id with
            | none => simp [hpost, hpr, hrid] at h
            | some rid =>
              refine ⟨code, body, pr, rid, rfl, by simpa using hc, hpr, hrid, ?_⟩
              simp [hpost, hpr, hrid]
        · have hpost : post_request (.response code body : HttpOutcome CreateBody)
              = none := by
            simp only [Bool.not_eq_true] at hc
            simp [post_request, hc]
          simp [hpost] at h
  · intro s n st d em o hid
    unfold after_each_test
    rw [if_pos (Or.inr (by rw [hid]; rfl))]
  · intro s t o hid
    unfold after_all_tests
    rw [if_pos (Or.inr (by rw [hid]; rfl))]

/-- Witness for C10: the fresh CI helper has no run id; a successful
create response with a `run_id` is exactly what sets it; with the id
unset, `after_each_test` and `after_all_tests` make zero HTTP calls. -/
theorem c10_witness :
    (APIHelper.init true).pipeline_run_id = none ∧
    (APIHelper.init true).is_jenkins = true ∧
    (∃ code body pr rid,
      okCreate = .response code body ∧ (code = 200 ∨ code = 201) ∧
      body.pipeline_run = some pr ∧ pr.run_id = some rid ∧
      (before_all_tests (APIHelper.init true) 0 okCreate).1.pipeline_run_id
        = some rid) ∧
    (after_each_test (APIHelper.init true) "t" "passed" 1 none .timeout).2.1 = 0 ∧
    (after_all_tests (APIHelper.init true) 0 .timeout).httpCalls = 0 := by
  obtain ⟨h1, -, -, h4, h5, h6⟩ := c10_run_id_invariant
  have hne : (before_all_tests (APIHelper.init true) 0 okCreate).1.pipeline_run_id
      ≠ (APIHelper.init true).pipeline_run_id := by decide
  obtain ⟨hj, hex⟩ := h4 (APIHelper.init true) 0 okCreate hne
  exact ⟨h1 true, hj, hex,
    h5 (APIHelper.init true) "t" "passed" 1 none .timeout rfl,
    h6 (APIHelper.init true) 0 .timeout rfl⟩

/-- Folding successful `after_each_test` calls over a CI state with a
truthy run id appends one record per test and bumps `api-3` once per
test, leaving flag, run id, other counters and start time unchanged. -/
theorem foldl_scenarioStep (tests : List (String × String × ℚ)) :
    ∀ (s : APIHelper) (rid : String), s.is_jenkins = true →
      s.pipeline_run_id = some rid → rid ≠ "" →
      (tests.foldl scenarioStep s).is_jenkins = true ∧
      (tests.foldl scenarioStep s).pipeline_run_id = some rid ∧
      (tests.foldl scenarioStep s).test_results =
        s.test_results ++
          tests.map (fun p =>
            { name := p.1, status := pyUpper p.2.1, duration := p.2.2
              error_message := none }) ∧
      (tests.foldl scenarioStep s).api3 = s.api3 + tests.length ∧
      (tests.foldl scenarioStep s).api1 = s.api1 ∧
      (tests.foldl scenarioStep s).api4 = s.api4 ∧
      (tests.foldl scenarioStep s).suite_start_time = s.suite_start_time := by
  induction tests with
  | nil =>
    intro s rid hj hid hr
    simp [hj, hid]
  | cons p tests ih =>
    intro s rid hj hid hr
    have hguard : ¬(s.is_jenkins = false ∨ truthyId s.pipeline_run_id = false) := by
      simp [hj, hid, truthyId, hr]
    have hstep : scenarioStep s p =
        { s with
            test_results := s.test_results ++
              [{ name := p.1, status := pyUpper p.2.1, duration := p.2.2
                 error_message := none }]
            api3 := s.api3 + 1 } := by
      unfold scenarioStep after_each_test
      rw [if_neg hguard]
      simp [hid, post_request]
    rw [List.foldl_cons, hstep]
    obtain ⟨a, b, c, d2, e, f, g⟩ :=
      ih
        { s with
            test_results := s.test_results ++
              [{ name := p.1, status := pyUpper p.2.1, duration := p.2.2
                 error_message := none }]
            api3 := s.api3 + 1 } rid hj hid hr
    refine ⟨a, b, ?_, ?_, e, f, g⟩
    · rw [c]
      simp
    · rw [d2]
      simp
      omega

/-- C6: for a session of exactly three recorded tests whose statuses
are a permutation of passed, failed, skipped, run under CI against a
mocked backend where every HTTP call succeeds and the create response
carries a valid run identifier, the call counters end at exactly one
`api-1` call, three `api-3` calls and one `api-4` call, and the final
PATCH payload carries `total_tests = 3`, `passed_tests = 1`,
`failed_tests = 1` and status `failed`. -/
theorem c6_end_to_end_scenario (tests : List (String × String × ℚ))
    (hperm : (tests.map fun p => p.2.1).Perm ["passed", "failed", "skipped"]) :
    (runScenario tests).state.api1 = 1 ∧
    (runScenario tests).state.api3 = 3 ∧
    (runScenario tests).state.api4 = 1 ∧
    ∃ p, (runScenario tests).payload = some p ∧
      p.total_tests = 3 ∧ p.passed_tests = 1 ∧ p.failed_tests = 1 ∧
      p.status = "failed" := by
  have hrun : runScenario tests =
      after_all_tests
        (tests.foldl scenarioStep
          { is_jenkins := true, pipeline_run_id := some "run-123"
            test_results := [], suite_start_time := some 0
            api1 := 1, api3 := 0, api4 := 0 })
        10 (.response 200 ()) := rfl
  rw [hrun]
  obtain ⟨hj2, hid2, hres2, hapi3, hapi1, hapi4, -⟩ :=
    foldl_scenarioStep tests
      { is_jenkins := true, pipeline_run_id := some "run-123"
        test_results := [], suite_start_time := some 0
        api1 := 1, api3 := 0, api4 := 0 } "run-123" rfl rfl (by decide)
  simp only [List.nil_append] at hres2
  have hlen : tests.length = 3 := by
    have hl := hperm.length_eq
    simpa using hl
  have hcount : ∀ stt : String,
      countStatus (tests.foldl scenarioStep
        { is_jenkins := true, pipeline_run_id := some "run-123"
          test_results := [], suite_start_time := some 0
          api1 := 1, api3 := 0, api4 := 0 }).test_results stt =
      List.countP (fun x => pyUpper x == stt) ["passed", "failed", "skipped"] := by
    intro stt
    have hmaps :
        List.countP (fun r => r.status == stt)
          (tests.map (fun p =>
            ({ name := p.1, status := pyUpper p.2.1, duration := p.2.2
               error_message := none } : TestResult))) =
        List.countP (fun x => pyUpper x == stt) (tests.map fun p => p.2.1) := by
      rw [List.countP_map, List.countP_map]
      rfl
    rw [countStatus, hres2, hmaps, hperm.countP_eq]
  have hP : countStatus (tests.foldl scenarioStep
      { is_jenkins := true, pipeline_run_id := some "run-123"
        test_results := [], suite_start_time := some 0
        api1 := 1, api3 := 0, api4 := 0 }).test_results "PASSED" = 1 := by
    rw [hcount]
    decide
  have hF : countStatus (tests.foldl scenarioStep
      { is_jenkins := true, pipeline_run_id := some "run-123"
        test_results := [], suite_start_time := some 0
        api1 := 1, api3 := 0, api4 := 0 }).test_results "FAILED" = 1 := by
    rw [hcount]
    decide
  obtain ⟨hpay, hcalls, ha1, ha3, ha4⟩ :=
    after_all_tests_remote
      (tests.foldl scenarioStep
        { is_jenkins := true, pipeline_run_id := some "run-123"
          test_results := [], suite_start_time := some 0
          api1 := 1, api3 := 0, api4 := 0 })
      10 (.response 200 ()) "run-123" hj2 hid2 (by decide)
  refine ⟨?_, ?_, ?_, ?_⟩
  · rw [ha1, hapi1]
  · rw [ha3, hapi3, hlen]
  · rw [ha4]
    simp [patch_request, hapi4]
  · refine ⟨_, hpay, ?_, ?_, ?_, ?_⟩ <;> dsimp only
    · rw [hres2]
      simp [hlen]
    · exact hP
    · exact hF
    · rw [hF]
      rfl

/-- Witness for C6 at the concrete order pass, fail, skip. -/
theorem c6_witness :
    (runScenario
      [("t1", "passed", 1), ("t2", "failed", 2), ("t3", "skipped", 3)]).state.api1
      = 1 ∧
    (runScenario
      [("t1", "passed", 1), ("t2", "failed", 2), ("t3", "skipped", 3)]).state.api3
      = 3 ∧
    (runScenario
      [("t1", "passed", 1), ("t2", "failed", 2), ("t3", "skipped", 3)]).state.api4
      = 1 ∧
    ∃ p,
      (runScenario
        [("t1", "passed", 1), ("t2", "failed", 2), ("t3", "skipped", 3)]).payload
        = some p ∧
      p.total_tests = 3 ∧ p.passed_tests = 1 ∧ p.failed_tests = 1 ∧
      p.status = "failed" :=
  c6_end_to_end_scenario
    [("t1", "passed", 1), ("t2", "failed", 2), ("t3", "skipped", 3)] (by decide)
